import Mathlib

/-
  Shallow embedding of vbox_backup.py (VirtualBox Automatic VM Backup).

  The script drives an external control plane (VBoxManage) and the local
  filesystem.  The embedding makes those effects explicit:
    - results of external calls (state queries, savestate, export, startvm,
      resume) are supplied by a VmEnv oracle record;
    - every control-plane call, warning log, sleep and compression step that
      the code issues is recorded in an event trace (List Ev);
    - the filesystem visible to compression and retention is a small explicit
      model (CompressFS for the archive packager, List FileEntry for the
      retention sweep).
  Python string operations (split, startswith, endswith, strip, lower,
  substring test) are modelled over character lists so that every definition
  evaluates by kernel reduction.
-/

namespace VboxBackup

/-- Does the second list start with the first?  Models Python str.startswith. -/
def leadsWith : List Char → List Char → Bool
  | [], _ => true
  | _ :: _, [] => false
  | p :: ps, x :: xs => p = x && leadsWith ps xs

/-- Substring test: models the Python operator (pat in s). -/
def containsSeq (pat : List Char) : List Char → Bool
  | [] => leadsWith pat []
  | x :: xs => leadsWith pat (x :: xs) || containsSeq pat xs

/-- Split on a single separator character; models Python str.split(c). -/
def splitOnCharAux (c : Char) : List Char → List Char → List (List Char)
  | [], acc => [acc.reverse]
  | x :: xs, acc =>
    if x = c then acc.reverse :: splitOnCharAux c xs []
    else splitOnCharAux c xs (x :: acc)

/-- Split a character list on a separator character. -/
def splitOnChar (c : Char) (l : List Char) : List (List Char) :=
  splitOnCharAux c l []

/-- Models Python str.strip applied with the double-quote character. -/
def stripQuotesL (l : List Char) : List Char :=
  ((l.dropWhile (· = '"')).reverse.dropWhile (· = '"')).reverse

/-- Models Python str.endswith. -/
def trailsWith (suf : String) (name : String) : Bool :=
  leadsWith suf.toList.reverse name.toList.reverse

/-- Models Python str.lower on a string (ASCII case folding as in Char.toLower). -/
def lowerL (s : String) : List Char :=
  s.toList.map Char.toLower

/-
  _get_vm_state (vbox_backup.py lines 227-251).
  The structured pass scans the query output line by line, returning the value
  of the first line starting with VMState= (split on the equals sign, element 1,
  quotes stripped).  Only if no such line exists does the free-text heuristic
  run, and a transport-level failure short-circuits to unknown.
-/

/-- The line scan of _get_vm_state: first line starting with VMState= wins. -/
def parseStateLines : List (List Char) → Option String
  | [] => none
  | l :: ls =>
    if leadsWith ("VMState=".toList) l then
      some (String.mk (stripQuotesL ((splitOnChar '=' l).getD 1 [])))
    else parseStateLines ls

/-- _get_vm_state from vbox_backup.py: structured parse first, then the
free-text heuristic, with transport failure mapped to unknown. -/
def get_vm_state (success : Bool) (output : String) : String :=
  if !success then "unknown"
  else
    match parseStateLines (splitOnChar '\n' output.toList) with
    | some st => st
    | none =>
      if containsSeq ("running".toList) (lowerL output) then "running"
      else if containsSeq ("paused".toList) (lowerL output) then "paused"
      else if containsSeq ("saved".toList) (lowerL output) then "saved"
      else "poweredoff"

/-- Specification-side description of the heuristic fallback of _get_vm_state,
kept separate from the implementation definition above. -/
def heuristicState (output : String) : String :=
  if containsSeq ("running".toList) (lowerL output) then "running"
  else if containsSeq ("paused".toList) (lowerL output) then "paused"
  else if containsSeq ("saved".toList) (lowerL output) then "saved"
  else "poweredoff"

/-- Specification-side value extraction for one VMState line. -/
def stateLineValue (l : List Char) : String :=
  String.mk (stripQuotesL ((splitOnChar '=' l).getD 1 []))

/-
  VM inventory and selection (get_vms_to_backup, lines 207-225).
-/

/-- A virtual machine record as produced by list_vms. -/
structure VmRec where
  name : String
  uuid : String
deriving DecidableEq

/-- get_vms_to_backup from vbox_backup.py: empty inventory short-circuits;
a non-empty include list filters by inclusion and ignores the exclude list;
otherwise the exclude list filters the whole inventory. -/
def get_vms_to_backup (all_vms : List VmRec)
    (vms_to_backup vms_to_exclude : List String) : List VmRec :=
  if all_vms.isEmpty then []
  else if !vms_to_backup.isEmpty then
    all_vms.filter (fun vm => decide (vm.name ∈ vms_to_backup))
  else
    all_vms.filter (fun vm => decide (vm.name ∉ vms_to_exclude))

/-
  Pipeline events.  Each constructor records one externally visible action of
  backup_vm: a control-plane invocation, a warning log, the fixed settle sleep,
  or the compression step.
-/

/-- Externally visible actions issued by the backup pipeline. -/
inductive Ev where
  | queryState
  | saveState
  | sleep (secs : Nat)
  | warn
  | exportCall
  | startHeadless
  | resumeCall
  | compressCall
deriving DecidableEq

/-- Oracle for the results of the external calls one backup job performs. -/
structure VmEnv where
  state0 : String
  saveOk : Bool
  stateAfterSave : String
  exportOk : Bool
  stateAtRestore : String
  startOk : Bool
  resumeOk : Bool
  tarFail : Bool
deriving DecidableEq

/-- The resolved configuration values the pipeline reads (defaults of
config.get already applied, as in the script). -/
structure Config where
  handle_running_vms : String
  resume_after_backup : Bool
  compression : Bool
  include_manifest : Bool
  auto_cleanup : Bool
  vms_to_backup : List String
  vms_to_exclude : List String
deriving DecidableEq

/-
  Filesystem model for the archive packager: the set of regular files present
  and the finalized (valid) archives with their entry lists.  A tar failure is
  caught by the except block of _compress_backup; the context manager does not
  finalize the container on an exception, so no valid archive is recorded and
  the originals are kept.
-/

/-- Filesystem state seen by _compress_backup. -/
structure CompressFS where
  files : List String
  archives : List (String × List String)
deriving DecidableEq

/-- The empty filesystem model. -/
def emptyFS : CompressFS := ⟨[], []⟩

/-- Python Path.with_suffix: replace the part from the last dot (append when
there is no dot). -/
def withSuffix (p suf : String) : String :=
  let parts := splitOnChar '.' p.toList
  if parts.length ≤ 1 then p ++ suf
  else String.mk (List.intercalate ['.'] parts.dropLast) ++ suf

/-- _compress_backup from vbox_backup.py (lines 392-422): no-op when the image
is absent; on success the archive holds the image plus the sibling manifest
when that manifest exists and both originals are unlinked; a packaging failure
is caught, leaving the files untouched and no finalized archive. -/
def compress_backup (tarFail : Bool) (backup_path : String) (fs : CompressFS) :
    CompressFS :=
  if !(decide (backup_path ∈ fs.files)) then fs
  else if tarFail then fs
  else
    { files := fs.files.filter
        (fun f => decide (f ≠ backup_path)
          && decide (f ≠ withSuffix backup_path ".mf"))
      archives :=
        (withSuffix backup_path ".tar.gz",
          backup_path ::
            (if decide (withSuffix backup_path ".mf" ∈ fs.files) then
              [withSuffix backup_path ".mf"] else [])) :: fs.archives }

/-- _resume_vm from vbox_backup.py (lines 264-295): re-query the state, then
dispatch on it (saved starts headless, paused resumes, running is a no-op,
anything else only warns and reports failure). -/
def resume_vm (env : VmEnv) : Bool × List Ev :=
  if env.stateAtRestore = "saved" then
    (env.startOk, [Ev.queryState, Ev.startHeadless])
  else if env.stateAtRestore = "paused" then
    (env.resumeOk, [Ev.queryState, Ev.resumeCall])
  else if env.stateAtRestore = "running" then
    (true, [Ev.queryState])
  else
    (false, [Ev.queryState, Ev.warn])

/-- Result of one backup_vm job: the boolean verdict returned to run_backup,
the final value of the was_running local, the event trace, and the resulting
filesystem. -/
structure BackupResult where
  ok : Bool
  wasRunning : Bool
  trace : List Ev
  fs : CompressFS
deriving DecidableEq

/-- Files created by a successful export: the image, plus the sibling manifest
when the manifest flag is passed (per the control-plane interface). -/
def exportFs (cfg : Config) (backup_path : String) (fs : CompressFS) :
    CompressFS :=
  { fs with files := fs.files ++ [backup_path]
      ++ (if cfg.include_manifest then [withSuffix backup_path ".mf"] else []) }

/-- The tail of backup_vm from the export call on (lines 343-390): a failed
export aborts the job; on success the VM is resumed when it was running and
resume_after_backup holds (a resume failure only logs a warning), then the
backup is compressed when compression is enabled, and the job reports success
regardless of the resume and compression outcomes. -/
def export_phase (cfg : Config) (env : VmEnv) (was_running : Bool)
    (t : List Ev) (backup_path : String) (fs0 : CompressFS) : BackupResult :=
  if !env.exportOk then ⟨false, was_running, t ++ [Ev.exportCall], fs0⟩
  else
    ⟨true, was_running,
      (t ++ [Ev.exportCall])
        ++ (if was_running && cfg.resume_after_backup then
              (resume_vm env).2
                ++ (if (resume_vm env).1 then [] else [Ev.warn])
            else [])
        ++ (if cfg.compression then [Ev.compressCall] else []),
      if cfg.compression then
        compress_backup env.tarFail backup_path (exportFs cfg backup_path fs0)
      else exportFs cfg backup_path fs0⟩

/-- backup_vm from vbox_backup.py (lines 297-390).  The initial state query is
followed by the running-VM policy dispatch: suspend saves state (marking
was_running before the attempt), sleeps five seconds, re-queries and warns
non-fatally when the re-query is not saved; skip warns and aborts; fail aborts;
any other policy value warns and proceeds without a transition.  A non-running
state outside the known safe set only warns.  Then the export phase runs. -/
def backup_vm (cfg : Config) (env : VmEnv) (vm_name timestamp : String)
    (fs0 : CompressFS) : BackupResult :=
  let backup_path := vm_name ++ "_" ++ timestamp ++ ".ova"
  if env.state0 = "running" then
    if cfg.handle_running_vms = "suspend" then
      if !env.saveOk then ⟨false, true, [Ev.queryState, Ev.saveState], fs0⟩
      else
        export_phase cfg env true
          ([Ev.queryState, Ev.saveState, Ev.sleep 5, Ev.queryState]
            ++ (if env.stateAfterSave = "saved" then [] else [Ev.warn]))
          backup_path fs0
    else if cfg.handle_running_vms = "skip" then
      ⟨false, false, [Ev.queryState, Ev.warn], fs0⟩
    else if cfg.handle_running_vms = "fail" then
      ⟨false, false, [Ev.queryState], fs0⟩
    else
      export_phase cfg env false [Ev.queryState, Ev.warn] backup_path fs0
  else
    export_phase cfg env false
      ([Ev.queryState]
        ++ (if ["poweredoff", "saved", "paused", "aborted"].contains env.state0
            then [] else [Ev.warn]))
      backup_path fs0

/-- Result of one run_backup invocation: the success and failure tallies of the
final summary and how many times cleanup_old_backups was invoked. -/
structure RunResult where
  successful : Nat
  failed : Nat
  cleanupRuns : Nat
deriving DecidableEq

/-- run_backup from vbox_backup.py (lines 463-491): resolve the targets, return
early when there are none, otherwise back up each target in order, tallying
success and failure, and finally invoke the cleanup once when auto_cleanup is
enabled. -/
def run_backup (cfg : Config) (timestamp : String) (all_vms : List VmRec)
    (envOf : String → VmEnv) : RunResult :=
  let vms := get_vms_to_backup all_vms cfg.vms_to_backup cfg.vms_to_exclude
  if vms.isEmpty then ⟨0, 0, 0⟩
  else
    let tally := vms.foldl
      (fun (p : Nat × Nat) vm =>
        if (backup_vm cfg (envOf vm.uuid) vm.name timestamp emptyFS).ok then
          (p.1 + 1, p.2)
        else (p.1, p.2 + 1))
      (0, 0)
    ⟨tally.1, tally.2, if cfg.auto_cleanup then 1 else 0⟩

/-
  Retention sweep (cleanup_old_backups, lines 424-461).  Timestamps are in
  seconds; the cutoff subtracts retention_days worth of seconds, matching the
  timedelta arithmetic of the script.
-/

/-- One directory entry of the backup store. -/
structure FileEntry where
  name : String
  isFile : Bool
  mtime : Int
  size : Nat
  unlinkFails : Bool
deriving DecidableEq

/-- Seconds in one day, the unit of the retention window. -/
def secondsPerDay : Int := 86400

/-- Python Path.suffix: the part of the name from its last dot, empty when the
name has no dot. -/
def pathSuffix (name : String) : String :=
  let parts := splitOnChar '.' name.toList
  if parts.length ≤ 1 then "" else String.mk ('.' :: parts.getLastD [])

/-- The artifact filter of cleanup_old_backups: the suffix test together with
the three endswith tests, exactly as the condition on lines 439-442. -/
def isBackupArtifact (name : String) : Bool :=
  ([".ova", ".tar.gz", ".mf"].contains (pathSuffix name))
    || trailsWith ".ova" name || trailsWith ".tar.gz" name
    || trailsWith ".mf" name

/-- The deletion loop of cleanup_old_backups: keep directories, keep files
without a recognized artifact suffix, keep files at or after the cutoff, keep
files whose deletion fails (logged), and delete the rest, accumulating the
count and freed bytes. -/
def sweep (cutoff : Int) : List FileEntry → List FileEntry × Nat × Nat
  | [] => ([], 0, 0)
  | e :: rest =>
    if e.isFile && isBackupArtifact e.name && decide (e.mtime < cutoff) then
      if e.unlinkFails then
        (e :: (sweep cutoff rest).1, (sweep cutoff rest).2.1,
          (sweep cutoff rest).2.2)
      else
        ((sweep cutoff rest).1, (sweep cutoff rest).2.1 + 1,
          (sweep cutoff rest).2.2 + e.size)
    else
      (e :: (sweep cutoff rest).1, (sweep cutoff rest).2.1,
        (sweep cutoff rest).2.2)

/-- cleanup_old_backups from vbox_backup.py: compute the cutoff and sweep the
store directory, returning the remaining entries, the deletion count and the
freed byte total. -/
def cleanup_old_backups (retention_days now : Int) (fs : List FileEntry) :
    List FileEntry × Nat × Nat :=
  sweep (now - retention_days * secondsPerDay) fs

/-
  Helper lemmas (shared).
-/

/-- The line scan of _get_vm_state returns the value of the first matching
line, in the sense of List.find?. -/
theorem parseStateLines_eq_find (ls : List (List Char)) :
    parseStateLines ls
      = ((ls.find? (fun l => leadsWith ("VMState=".toList) l)).map stateLineValue) := by
  induction ls with
  | nil => rfl
  | cons l ls ih =>
    cases h : leadsWith ("VMState=".toList) l with
    | true =>
      simp only [parseStateLines]
      rw [if_pos h, List.find?_cons_of_pos _ h]
      rfl
    | false =>
      simp only [parseStateLines]
      rw [if_neg (by simpa using h), List.find?_cons_of_neg _ (by simpa using h), ih]

/-- A success/failure tally fold counts every element exactly once. -/
theorem foldl_tally {α : Type} (f : α → Bool) (l : List α) (p : Nat × Nat) :
    ((l.foldl (fun (q : Nat × Nat) v =>
        if f v then (q.1 + 1, q.2) else (q.1, q.2 + 1)) p).1
      + (l.foldl (fun (q : Nat × Nat) v =>
        if f v then (q.1 + 1, q.2) else (q.1, q.2 + 1)) p).2)
      = p.1 + p.2 + l.length := by
  induction l generalizing p with
  | nil => simp
  | cons v l ih =>
    cases h : f v <;> simp [h, ih] <;> omega

/-- Folds agree when the step functions agree on every list element. -/
theorem foldl_congr_mem {α β : Type} (f g : β → α → β) (l : List α) (b : β)
    (h : ∀ (b' : β) (a : α), a ∈ l → f b' a = g b' a) :
    l.foldl f b = l.foldl g b := by
  induction l generalizing b with
  | nil => rfl
  | cons x xs ih =>
    rw [List.foldl_cons, List.foldl_cons, h b x (List.mem_cons_self x xs)]
    exact ih _ (fun b' a ha => h b' a (List.mem_cons_of_mem x ha))

/-- A running target under policy skip or fail aborts the job. -/
theorem backup_vm_skip_or_fail (cfg : Config) (env : VmEnv)
    (vm_name timestamp : String) (fs0 : CompressFS)
    (hrun : env.state0 = "running")
    (h : cfg.handle_running_vms = "skip" ∨ cfg.handle_running_vms = "fail") :
    (backup_vm cfg env vm_name timestamp fs0).ok = false := by
  obtain ⟨hr, rab, cp, im, ac, vb, ve⟩ := cfg
  obtain ⟨s0, sv, sas, eo, sar, so, ro, tf⟩ := env
  simp only at hrun
  subst hrun
  rcases h with h | h <;> (simp only at h; subst h; simp [backup_vm])

/-- The job verdict of backup_vm as a function of the policy and the oracle
outcomes alone: it never depends on the restore or packaging results. -/
theorem backup_vm_ok_eq (cfg : Config) (env : VmEnv) (vm_name timestamp : String)
    (fs0 : CompressFS) :
    (backup_vm cfg env vm_name timestamp fs0).ok
      = (if env.state0 = "running" then
          if cfg.handle_running_vms = "suspend" then env.saveOk && env.exportOk
          else if cfg.handle_running_vms = "skip" then false
          else if cfg.handle_running_vms = "fail" then false
          else env.exportOk
        else env.exportOk) := by
  by_cases h1 : env.state0 = "running"
  · by_cases h2 : cfg.handle_running_vms = "suspend"
    · cases hsv : env.saveOk
      · simp [backup_vm, export_phase, h1, h2, hsv]
      · cases heo : env.exportOk <;>
          simp [backup_vm, export_phase, h1, h2, hsv, heo]
    · by_cases h3 : cfg.handle_running_vms = "skip"
      · simp [backup_vm, h1, h2, h3]
      · by_cases h4 : cfg.handle_running_vms = "fail"
        · simp [backup_vm, h1, h2, h3, h4]
        · cases heo : env.exportOk <;>
            simp [backup_vm, export_phase, h1, h2, h3, h4, heo]
  · cases heo : env.exportOk <;> simp [backup_vm, export_phase, h1, heo]

/-
  Claim theorems.
-/

/-- Claim C5: for every state-query output text, if a structured VMState=
line is present its value is returned and the heuristic free-text scan is
never consulted; only when no such line exists does the heuristic scan for
running/paused/saved apply, defaulting to poweredoff; a transport-level
failure yields unknown. -/
theorem claim_C5_state_query (success : Bool) (output : String) :
    (success = false → get_vm_state success output = "unknown") ∧
    (∀ line,
      (splitOnChar '\n' output.toList).find?
          (fun l => leadsWith ("VMState=".toList) l) = some line →
      get_vm_state true output = stateLineValue line) ∧
    ((splitOnChar '\n' output.toList).find?
          (fun l => leadsWith ("VMState=".toList) l) = none →
      get_vm_state true output = heuristicState output) := by
  refine ⟨?_, ?_, ?_⟩
  · intro h; subst h; rfl
  · intro line h
    unfold get_vm_state
    rw [parseStateLines_eq_find, h]
    rfl
  · intro h
    unfold get_vm_state heuristicState
    rw [parseStateLines_eq_find, h]
    rfl

/-- Concrete instance of claim C5: a structured VMState line reporting saved
wins over free text containing the substring running. -/
theorem claim_C5_witness :
    ((splitOnChar '\n' ("foo running\nVMState=\"saved\"").toList).find?
        (fun l => leadsWith ("VMState=".toList) l)
      = some ("VMState=\"saved\"".toList)) ∧
    stateLineValue ("VMState=\"saved\"".toList) = "saved" ∧
    heuristicState "foo running\nVMState=\"saved\"" = "running" ∧
    get_vm_state true "foo running\nVMState=\"saved\""
      = stateLineValue ("VMState=\"saved\"".toList) :=
  ⟨by decide, by decide, by decide,
    (claim_C5_state_query true "foo running\nVMState=\"saved\"").2.1
      ("VMState=\"saved\"".toList) (by decide)⟩

/-- Claim C8: when the include list is non-empty, exactly the VMs whose name
is in the include list are selected and the exclude list is ignored; when the
include list is empty, all VMs except those whose name is in the exclude list
are selected; with the concrete inventory A,B,C,D of the claim. -/
theorem claim_C8_selection (all_vms : List VmRec) (inc exc : List String) :
    (∀ vm, vm ∈ get_vms_to_backup all_vms inc exc ↔
      (vm ∈ all_vms ∧ (if inc = [] then vm.name ∉ exc else vm.name ∈ inc))) ∧
    ((get_vms_to_backup [⟨"A", "1"⟩, ⟨"B", "2"⟩, ⟨"C", "3"⟩, ⟨"D", "4"⟩]
        ["A", "C"] []).map VmRec.name = ["A", "C"]) ∧
    ((get_vms_to_backup [⟨"A", "1"⟩, ⟨"B", "2"⟩, ⟨"C", "3"⟩, ⟨"D", "4"⟩]
        [] ["B"]).map VmRec.name = ["A", "C", "D"]) := by
  refine ⟨?_, by decide, by decide⟩
  intro vm
  unfold get_vms_to_backup
  rcases hall : all_vms.isEmpty with _ | _
  · rcases hinc : inc.isEmpty with _ | _
    · have hinc2 : inc ≠ [] := by
        simp [List.isEmpty_iff] at hinc; exact hinc
      simp [hall, hinc, hinc2, List.mem_filter]
    · have hinc2 : inc = [] := by
        simpa [List.isEmpty_iff] using hinc
      simp [hall, hinc, hinc2, List.mem_filter]
  · have : all_vms = [] := by simpa [List.isEmpty_iff] using hall
    subst this
    simp [hall]

/-- Specification-side keep predicate of the retention sweep: an entry
survives unless it is a regular file with a recognized backup-artifact suffix
whose modification time is strictly before the cutoff. -/
def keepEntry (cutoff : Int) (e : FileEntry) : Bool :=
  !(e.isFile && isBackupArtifact e.name && decide (e.mtime < cutoff))

/-- Claim C3: with no deletion failures, the retention sweep keeps exactly the
entries that are not regular files with a recognized backup-artifact suffix
strictly older than the cutoff now minus retention days. -/
theorem claim_C3_retention (retention_days now : Int) (fs : List FileEntry)
    (hok : ∀ e ∈ fs, e.unlinkFails = false) :
    (cleanup_old_backups retention_days now fs).1 =
      fs.filter (keepEntry (now - retention_days * secondsPerDay)) := by
  unfold cleanup_old_backups
  induction fs with
  | nil => rfl
  | cons e rest ih =>
    have he : e.unlinkFails = false := hok e (List.mem_cons_self e rest)
    have hr : ∀ x ∈ rest, x.unlinkFails = false :=
      fun x hx => hok x (List.mem_cons_of_mem e hx)
    cases hc : (e.isFile && isBackupArtifact e.name
        && decide (e.mtime < now - retention_days * secondsPerDay)) with
    | true =>
      have hk : keepEntry (now - retention_days * secondsPerDay) e = false := by
        simp only [keepEntry, hc, Bool.not_true]
      simp only [sweep, he, if_pos hc, if_neg (by simp [he] : ¬e.unlinkFails = true),
        List.filter_cons, hk, ih hr]
      simp
    | false =>
      have hk : keepEntry (now - retention_days * secondsPerDay) e = true := by
        simp only [keepEntry, hc, Bool.not_false]
      simp only [sweep, if_neg (by simp [hc] : ¬(e.isFile && isBackupArtifact e.name
        && decide (e.mtime < now - retention_days * secondsPerDay)) = true),
        List.filter_cons, hk, ih hr]
      simp

/-- Concrete store for the retention witness: a 31-day-old image, a 29-day-old
archive, an old unrecognized file and an old directory, retention 30 days. -/
def exNow : Int := 1000000000

/-- Concrete directory entries for the retention witness. -/
def exFs : List FileEntry :=
  [⟨"old.ova", true, exNow - 31 * 86400, 100, false⟩,
   ⟨"recent.tar.gz", true, exNow - 29 * 86400, 200, false⟩,
   ⟨"ancient_notes.txt", true, exNow - 400 * 86400, 300, false⟩,
   ⟨"olddir.ova", false, exNow - 400 * 86400, 0, false⟩]

/-- Concrete instance of claim C3: with retention 30 days, the 31-day-old
artifact is deleted while the 29-day-old artifact, the unrecognized file and
the directory survive. -/
theorem claim_C3_witness :
    (∀ e ∈ exFs, e.unlinkFails = false) ∧
    (cleanup_old_backups 30 exNow exFs).1
      = exFs.filter (keepEntry (exNow - 30 * secondsPerDay)) ∧
    (cleanup_old_backups 30 exNow exFs).1
      = [⟨"recent.tar.gz", true, exNow - 29 * 86400, 200, false⟩,
         ⟨"ancient_notes.txt", true, exNow - 400 * 86400, 300, false⟩,
         ⟨"olddir.ova", false, exNow - 400 * 86400, 0, false⟩] :=
  ⟨by decide, claim_C3_retention 30 exNow exFs (by decide), by decide⟩

/-- Claim C1: for a running VM under policy suspend, the controller issues a
save-state call, sleeps a fixed five-second settle interval, re-queries the
state, warns but proceeds when the re-query is not saved, and sets
was_running; after a successful export it issues a start-from-saved-state
call exactly when resume_after_backup is true. -/
theorem claim_C1_suspend (cfg : Config) (env : VmEnv)
    (vm_name timestamp : String) (fs0 : CompressFS)
    (hpol : cfg.handle_running_vms = "suspend")
    (hrun : env.state0 = "running")
    (hsave : env.saveOk = true)
    (hexp : env.exportOk = true)
    (hrestore : env.stateAtRestore = "saved") :
    (backup_vm cfg env vm_name timestamp fs0).wasRunning = true ∧
    (backup_vm cfg env vm_name timestamp fs0).trace.take 4
      = [Ev.queryState, Ev.saveState, Ev.sleep 5, Ev.queryState] ∧
    (env.stateAfterSave ≠ "saved" →
      Ev.warn ∈ (backup_vm cfg env vm_name timestamp fs0).trace ∧
      Ev.exportCall ∈ (backup_vm cfg env vm_name timestamp fs0).trace) ∧
    (cfg.resume_after_backup = true →
      Ev.startHeadless ∈ (backup_vm cfg env vm_name timestamp fs0).trace) ∧
    (cfg.resume_after_backup = false →
      Ev.startHeadless ∉ (backup_vm cfg env vm_name timestamp fs0).trace ∧
      Ev.resumeCall ∉ (backup_vm cfg env vm_name timestamp fs0).trace) := by
  obtain ⟨hr, rab, cp, im, ac, vb, ve⟩ := cfg
  obtain ⟨s0, sv, sas, eo, sar, so, ro, tf⟩ := env
  simp only at hpol hrun hsave hexp hrestore
  subst hpol hrun hsave hexp hrestore
  simp only [backup_vm, export_phase, resume_vm]
  refine ⟨?_, ?_, ?_, ?_, ?_⟩
  · cases sas' : decide (sas = "saved") <;> cases rab <;> cases cp <;>
      simp_all [backup_vm, export_phase, resume_vm]
  · cases sas' : decide (sas = "saved") <;> cases rab <;> cases cp <;>
      simp_all [backup_vm, export_phase, resume_vm]
  · intro hs
    cases rab <;> cases cp <;> simp_all [backup_vm, export_phase, resume_vm]
  · intro h
    cases sas' : decide (sas = "saved") <;> cases cp <;>
      simp_all [backup_vm, export_phase, resume_vm]
  · intro h
    cases sas' : decide (sas = "saved") <;> cases cp <;>
      simp_all [backup_vm, export_phase, resume_vm]

/-- Concrete configuration for the pipeline witnesses: suspend policy, resume
and compression enabled. -/
def cfgW1 : Config := ⟨"suspend", true, true, true, true, [], []⟩

/-- Concrete oracle for the C1 witness: running VM, save succeeds but the
re-query still reports running, export succeeds, restore-time state saved. -/
def envW1 : VmEnv := ⟨"running", true, "running", true, "saved", true, true, false⟩

/-- Concrete instance of claim C1: under the suspend policy the witness run
issues the start-from-saved-state call after the export. -/
theorem claim_C1_witness :
    Ev.startHeadless ∈ (backup_vm cfgW1 envW1 "VM" "ts" emptyFS).trace :=
  (claim_C1_suspend cfgW1 envW1 "VM" "ts" emptyFS rfl rfl rfl rfl rfl).2.2.2.1 rfl

/-- Claim C2: restoration re-queries the current state and dispatches on it
(saved starts headless, paused resumes, running is a no-op, anything else only
warns), and a restoration failure never flips a successful backup verdict:
under the suspend policy with a successful export the job verdict is true
with no assumption on the restore outcome. -/
theorem claim_C2_restore (cfg : Config) (env : VmEnv)
    (vm_name timestamp : String) (fs0 : CompressFS)
    (hpol : cfg.handle_running_vms = "suspend")
    (hrun : env.state0 = "running")
    (hsave : env.saveOk = true)
    (hexp : env.exportOk = true) :
    (env.stateAtRestore = "saved" →
      resume_vm env = (env.startOk, [Ev.queryState, Ev.startHeadless])) ∧
    (env.stateAtRestore = "paused" →
      resume_vm env = (env.resumeOk, [Ev.queryState, Ev.resumeCall])) ∧
    (env.stateAtRestore = "running" →
      resume_vm env = (true, [Ev.queryState])) ∧
    (env.stateAtRestore ∉ (["saved", "paused", "running"] : List String) →
      resume_vm env = (false, [Ev.queryState, Ev.warn])) ∧
    (backup_vm cfg env vm_name timestamp fs0).ok = true := by
  refine ⟨?_, ?_, ?_, ?_, ?_⟩
  · intro h; simp [resume_vm, h]
  · intro h; simp [resume_vm, h]
  · intro h; simp [resume_vm, h]
  · intro h
    simp only [List.mem_cons, List.not_mem_nil, or_false, not_or] at h
    obtain ⟨h1, h2, h3⟩ := h
    simp [resume_vm, h1, h2, h3]
  · obtain ⟨hr, rab, cp, im, ac, vb, ve⟩ := cfg
    obtain ⟨s0, sv, sas, eo, sar, so, ro, tf⟩ := env
    simp only at hpol hrun hsave hexp
    subst hpol hrun hsave hexp
    simp only [backup_vm, export_phase, resume_vm]
    cases sas' : decide (sas = "saved") <;> cases rab <;> cases cp <;>
      simp_all [backup_vm, export_phase, resume_vm]

/-- Concrete oracle for the C2 witness: the restore-time start call fails,
yet the job verdict stays true. -/
def envW2 : VmEnv := ⟨"running", true, "saved", true, "saved", false, false, false⟩

/-- Concrete instance of claim C2: the witness job succeeds although its
restoration start call fails. -/
theorem claim_C2_witness :
    (backup_vm cfgW1 envW2 "VM" "ts" emptyFS).ok = true :=
  (claim_C2_restore cfgW1 envW2 "VM" "ts" emptyFS rfl rfl rfl rfl).2.2.2.2

/-- Claim C7: for a running target, policy allow and any unrecognized policy
value log a warning, proceed with the export, and leave was_running false, so
no restoration call is ever issued. -/
theorem claim_C7_allow (cfg : Config) (env : VmEnv)
    (vm_name timestamp : String) (fs0 : CompressFS)
    (hrun : env.state0 = "running")
    (h1 : cfg.handle_running_vms ≠ "suspend")
    (h2 : cfg.handle_running_vms ≠ "skip")
    (h3 : cfg.handle_running_vms ≠ "fail") :
    (backup_vm cfg env vm_name timestamp fs0).wasRunning = false ∧
    Ev.warn ∈ (backup_vm cfg env vm_name timestamp fs0).trace ∧
    Ev.exportCall ∈ (backup_vm cfg env vm_name timestamp fs0).trace ∧
    Ev.startHeadless ∉ (backup_vm cfg env vm_name timestamp fs0).trace ∧
    Ev.resumeCall ∉ (backup_vm cfg env vm_name timestamp fs0).trace := by
  obtain ⟨hr, rab, cp, im, ac, vb, ve⟩ := cfg
  obtain ⟨s0, sv, sas, eo, sar, so, ro, tf⟩ := env
  simp only at hrun h1 h2 h3
  subst hrun
  simp only [backup_vm, export_phase, resume_vm]
  refine ⟨?_, ?_, ?_, ?_, ?_⟩ <;>
    cases eo <;> cases cp <;>
      simp_all [backup_vm, export_phase, resume_vm]

/-- Concrete configuration for the C7 witness: the unrecognized policy value
falls through to proceeding with the export. -/
def cfgW7 : Config := ⟨"allow", true, true, true, true, [], []⟩

/-- Concrete instance of claim C7: the allow policy proceeds to the export
call while issuing no restoration call. -/
theorem claim_C7_witness :
    Ev.exportCall ∈ (backup_vm cfgW7 envW1 "VM" "ts" emptyFS).trace ∧
    Ev.startHeadless ∉ (backup_vm cfgW7 envW1 "VM" "ts" emptyFS).trace :=
  ⟨(claim_C7_allow cfgW7 envW1 "VM" "ts" emptyFS rfl (by decide) (by decide)
      (by decide)).2.2.1,
    (claim_C7_allow cfgW7 envW1 "VM" "ts" emptyFS rfl (by decide) (by decide)
      (by decide)).2.2.2.1⟩

/-- Claim C10: when policy suspend saves a running VM but the export fails,
the job returns failure, no restoration call is attempted even with
resume_after_backup enabled, and no compression happens. -/
theorem claim_C10_export_failure (cfg : Config) (env : VmEnv)
    (vm_name timestamp : String) (fs0 : CompressFS)
    (hpol : cfg.handle_running_vms = "suspend")
    (hrun : env.state0 = "running")
    (hsave : env.saveOk = true)
    (hexp : env.exportOk = false)
    (hres : cfg.resume_after_backup = true) :
    (backup_vm cfg env vm_name timestamp fs0).ok = false ∧
    (backup_vm cfg env vm_name timestamp fs0).wasRunning = true ∧
    Ev.exportCall ∈ (backup_vm cfg env vm_name timestamp fs0).trace ∧
    Ev.startHeadless ∉ (backup_vm cfg env vm_name timestamp fs0).trace ∧
    Ev.resumeCall ∉ (backup_vm cfg env vm_name timestamp fs0).trace ∧
    Ev.compressCall ∉ (backup_vm cfg env vm_name timestamp fs0).trace := by
  obtain ⟨hr, rab, cp, im, ac, vb, ve⟩ := cfg
  obtain ⟨s0, sv, sas, eo, sar, so, ro, tf⟩ := env
  simp only at hpol hrun hsave hexp hres
  subst hpol hrun hsave hexp hres
  simp only [backup_vm, export_phase, resume_vm]
  refine ⟨?_, ?_, ?_, ?_, ?_, ?_⟩ <;>
    cases sas' : decide (sas = "saved") <;>
      simp_all [backup_vm, export_phase, resume_vm]

/-- Concrete oracle for the C10 witness: save succeeds, export fails. -/
def envW10 : VmEnv := ⟨"running", true, "saved", false, "saved", true, true, false⟩

/-- Concrete instance of claim C10: the witness job fails and issues no
restoration call although resume_after_backup is enabled. -/
theorem claim_C10_witness :
    (backup_vm cfgW1 envW10 "VM" "ts" emptyFS).ok = false ∧
    Ev.startHeadless ∉ (backup_vm cfgW1 envW10 "VM" "ts" emptyFS).trace :=
  ⟨(claim_C10_export_failure cfgW1 envW10 "VM" "ts" emptyFS rfl rfl rfl rfl rfl).1,
    (claim_C10_export_failure cfgW1 envW10 "VM" "ts" emptyFS rfl rfl rfl rfl
      rfl).2.2.2.1⟩

/-- Claim C4: compressing an existing image with an existing sibling manifest
produces one archive holding exactly the image and the manifest, deletes both
originals on success; a packaging failure leaves the filesystem untouched
(originals preserved, no finalized container); and the job verdict of
backup_vm does not depend on the packaging outcome. -/
theorem claim_C4_compression (p : String) (fs : CompressFS)
    (cfg : Config) (env : VmEnv) (vm_name timestamp : String)
    (fs0 : CompressFS)
    (himg : p ∈ fs.files)
    (hmf : withSuffix p ".mf" ∈ fs.files) :
    ((compress_backup false p fs).archives
      = (withSuffix p ".tar.gz", [p, withSuffix p ".mf"]) :: fs.archives) ∧
    (p ∉ (compress_backup false p fs).files) ∧
    (withSuffix p ".mf" ∉ (compress_backup false p fs).files) ∧
    (compress_backup true p fs = fs) ∧
    ((backup_vm cfg { env with tarFail := true } vm_name timestamp fs0).ok
      = (backup_vm cfg { env with tarFail := false } vm_name timestamp
          fs0).ok) := by
  refine ⟨?_, ?_, ?_, ?_, ?_⟩
  · simp [compress_backup, himg, hmf]
  · simp [compress_backup, himg, List.mem_filter]
  · simp [compress_backup, himg, List.mem_filter]
  · simp [compress_backup, himg]
  · rw [backup_vm_ok_eq, backup_vm_ok_eq]

/-- Concrete store for the C4 witness: the image and its sibling manifest. -/
def exCompressFs : CompressFS := ⟨["VM_ts.ova", "VM_ts.mf"], []⟩

/-- Concrete instance of claim C4: compressing the witness store yields one
archive with exactly the two entries and removes both originals, while a
failing compression leaves the store unchanged. -/
theorem claim_C4_witness :
    ((compress_backup false "VM_ts.ova" exCompressFs).archives
      = [("VM_ts.tar.gz", ["VM_ts.ova", "VM_ts.mf"])]) ∧
    (compress_backup true "VM_ts.ova" exCompressFs = exCompressFs) := by
  have h := claim_C4_compression "VM_ts.ova" exCompressFs cfgW1 envW1 "VM" "ts"
    emptyFS (by decide) (by decide)
  exact ⟨by rw [h.1]; rfl, h.2.2.2.1⟩

/-- Claim C6 (amended): for a running target, policy skip yields a false
verdict with no export call (logging a warning) and policy fail yields a false
verdict with no export call (logging an error); the run tallies both in the
same failed counter, so the run result under skip equals the run result under
fail. -/
theorem claim_C6_skip_fail (cfg : Config) (env : VmEnv)
    (vm_name timestamp : String) (fs0 : CompressFS)
    (all_vms : List VmRec) (envOf : String → VmEnv)
    (hrun : env.state0 = "running")
    (hall : ∀ vm ∈ get_vms_to_backup all_vms cfg.vms_to_backup
        cfg.vms_to_exclude, (envOf vm.uuid).state0 = "running") :
    (cfg.handle_running_vms = "skip" →
      (backup_vm cfg env vm_name timestamp fs0).ok = false ∧
      Ev.exportCall ∉ (backup_vm cfg env vm_name timestamp fs0).trace) ∧
    (cfg.handle_running_vms = "fail" →
      (backup_vm cfg env vm_name timestamp fs0).ok = false ∧
      Ev.exportCall ∉ (backup_vm cfg env vm_name timestamp fs0).trace) ∧
    (cfg.handle_running_vms = "skip" →
      run_backup cfg timestamp all_vms envOf
        = run_backup { cfg with handle_running_vms := "fail" } timestamp
            all_vms envOf) := by
  obtain ⟨hr, rab, cp, im, ac, vb, ve⟩ := cfg
  obtain ⟨s0, sv, sas, eo, sar, so, ro, tf⟩ := env
  simp only at hrun hall
  subst hrun
  refine ⟨?_, ?_, ?_⟩
  · intro h; simp only at h; subst h; simp [backup_vm]
  · intro h; simp only at h; subst h; simp [backup_vm]
  · intro h; simp only at h; subst h
    simp only [run_backup]
    by_cases he : (get_vms_to_backup all_vms vb ve).isEmpty
    · simp [he]
    · simp only [he, Bool.false_eq_true, if_false]
      rw [foldl_congr_mem
        (fun (p : Nat × Nat) vm =>
          if (backup_vm ⟨"skip", rab, cp, im, ac, vb, ve⟩ (envOf vm.uuid)
              vm.name timestamp emptyFS).ok then (p.1 + 1, p.2)
          else (p.1, p.2 + 1))
        (fun (p : Nat × Nat) vm =>
          if (backup_vm ⟨"fail", rab, cp, im, ac, vb, ve⟩ (envOf vm.uuid)
              vm.name timestamp emptyFS).ok then (p.1 + 1, p.2)
          else (p.1, p.2 + 1))
        (get_vms_to_backup all_vms vb ve) (0, 0) ?_]
      intro p vm hm
      dsimp only
      rw [backup_vm_skip_or_fail _ _ _ _ _ (hall vm hm) (Or.inl rfl),
        backup_vm_skip_or_fail _ _ _ _ _ (hall vm hm) (Or.inr rfl)]

/-- Concrete skip-policy configuration. -/
def cfgSkipW : Config := ⟨"skip", true, true, true, true, [], []⟩

/-- Concrete fail-policy configuration. -/
def cfgFailW : Config := ⟨"fail", true, true, true, true, [], []⟩

/-- Concrete running-VM oracle shared by the run-level counterexamples. -/
def envRunW : VmEnv := ⟨"running", true, "saved", true, "saved", true, true, false⟩

/-- Counterexample to claim C6 as stated: over a one-VM inventory with a
running target, the run under policy skip and the run under policy fail
produce identical run results — one failure and no success — so skipped and
failed are not distinct tally outcomes of the run. -/
theorem claim_C6_counterexample :
    run_backup cfgSkipW "ts" [⟨"A", "1"⟩] (fun _ => envRunW)
      = run_backup cfgFailW "ts" [⟨"A", "1"⟩] (fun _ => envRunW) ∧
    (run_backup cfgSkipW "ts" [⟨"A", "1"⟩] (fun _ => envRunW)).successful = 0 ∧
    (run_backup cfgSkipW "ts" [⟨"A", "1"⟩] (fun _ => envRunW)).failed = 1 :=
  ⟨rfl, rfl, rfl⟩

/-- Concrete instance of claim C6 (amended): under policy skip the witness job
fails without an export call. -/
theorem claim_C6_witness :
    (backup_vm cfgSkipW envRunW "VM" "ts" emptyFS).ok = false ∧
    Ev.exportCall ∉ (backup_vm cfgSkipW envRunW "VM" "ts" emptyFS).trace :=
  (claim_C6_skip_fail cfgSkipW envRunW "VM" "ts" emptyFS [] (fun _ => envRunW)
    rfl (by intro vm hm; cases hm)).1 rfl

/-- Claim C9 (amended): the orchestrator processes every selected target,
tallying each as success or failure and continuing regardless of outcome, and
after all targets it invokes the retention sweep exactly once when cleanup is
enabled and the selected-target set is non-empty; an empty selected-target
set returns early without invoking the sweep. -/
theorem claim_C9_orchestration (cfg : Config) (timestamp : String)
    (all_vms : List VmRec) (envOf : String → VmEnv) :
    ((run_backup cfg timestamp all_vms envOf).successful
        + (run_backup cfg timestamp all_vms envOf).failed
      = (get_vms_to_backup all_vms cfg.vms_to_backup
          cfg.vms_to_exclude).length) ∧
    (get_vms_to_backup all_vms cfg.vms_to_backup cfg.vms_to_exclude ≠ [] →
      (run_backup cfg timestamp all_vms envOf).cleanupRuns
        = (if cfg.auto_cleanup then 1 else 0)) ∧
    (get_vms_to_backup all_vms cfg.vms_to_backup cfg.vms_to_exclude = [] →
      (run_backup cfg timestamp all_vms envOf).cleanupRuns = 0) := by
  refine ⟨?_, ?_, ?_⟩
  · simp only [run_backup]
    by_cases he : (get_vms_to_backup all_vms cfg.vms_to_backup
        cfg.vms_to_exclude).isEmpty
    · simp [he, List.isEmpty_iff.mp he]
    · simp only [he, Bool.false_eq_true, if_false]
      simpa using foldl_tally
        (fun vm => (backup_vm cfg (envOf vm.uuid) vm.name timestamp
          emptyFS).ok)
        (get_vms_to_backup all_vms cfg.vms_to_backup cfg.vms_to_exclude)
        (0, 0)
  · intro hne
    have he : (get_vms_to_backup all_vms cfg.vms_to_backup
        cfg.vms_to_exclude).isEmpty = false := by
      simpa [List.isEmpty_iff] using hne
    simp [run_backup, he]
  · intro hz
    have he : (get_vms_to_backup all_vms cfg.vms_to_backup
        cfg.vms_to_exclude).isEmpty = true := by
      simpa [List.isEmpty_iff] using hz
    simp [run_backup, he]

/-- Concrete instance of claim C9 (amended): a non-empty run with cleanup
enabled invokes the sweep exactly once. -/
theorem claim_C9_witness :
    get_vms_to_backup [⟨"A", "1"⟩] cfgW1.vms_to_backup cfgW1.vms_to_exclude
      ≠ [] ∧
    (run_backup cfgW1 "ts" [⟨"A", "1"⟩] (fun _ => envW1)).cleanupRuns
      = (if cfgW1.auto_cleanup then 1 else 0) :=
  ⟨by decide,
    (claim_C9_orchestration cfgW1 "ts" [⟨"A", "1"⟩] (fun _ => envW1)).2.1
      (by decide)⟩

/-- Configuration whose exclude list empties the selection while cleanup is
enabled. -/
def cfgExclW : Config := ⟨"suspend", true, true, true, true, [], ["B"]⟩

/-- Counterexample to claim C9 as stated: with cleanup enabled but an empty
selected-target set, the run returns early and never invokes the retention
sweep. -/
theorem claim_C9_counterexample :
    cfgExclW.auto_cleanup = true ∧
    get_vms_to_backup [⟨"B", "2"⟩] cfgExclW.vms_to_backup
      cfgExclW.vms_to_exclude = [] ∧
    (run_backup cfgExclW "ts" [⟨"B", "2"⟩] (fun _ => envRunW)).cleanupRuns
      = 0 :=
  ⟨rfl, rfl, rfl⟩

end VboxBackup
